import Mathlib

/-!
Verification model of DeArrowThumbnailCache.

Shallow embedding of the parts of the repository the claims are about:
`utils/thumbnail.py` (thumbnail generation and file lookup), `utils/proxy.py`
(proxy selection), and `utils/nsig.py` (the signing-helper client).

External effects (ffmpeg invocations, the playback-URL resolver, the redis
coordinator store, the cleanup trigger) are modelled by explicit outcome
parameters; filesystem state for a single fingerprint is modelled by the
`FS` record.  All definitions are translated from the source files under
`src/`; the few pieces of the repository that are imported but absent from
`src/` (`utils/video.py`, `utils/cleanup.py`, `constants/thumbnail.py`) are
modelled from the spec and marked as such in their doc comments.
-/

/-- On-disk state for a single fingerprint `(video_id, time)`:
`image` is the size in bytes of the `<offset>.webp` file when it exists,
`titleFile` is the content of the `<offset>.txt` metadata file when it
exists (`get_file_paths`, thumbnail.py lines 261-272). -/
structure FS where
  image : Option Nat
  titleFile : Option String
deriving DecidableEq, Repr

/-- Outcome of one `generate_with_ffmpeg` invocation (thumbnail.py lines
126-181): `some sz` means ffmpeg wrote the output file with `sz` bytes;
`none` means `FFmpegError` was raised, in which case the code unlinks the
output file (line 176) before re-raising. -/
abbrev FfmpegOutcome := Option Nat

/-- Error classes that can escape `generate_thumbnail`.
`valueError` is Python `ValueError`: raised by the input validation
(lines 45-48) and also by `int()` on a NaN time at line 132;
`overflowError` is the `OverflowError` raised by `int()` on an infinite
time at line 132; `resolveError` is any exception out of
`get_playback_url` (not a `ThumbnailGenerationError`, hence not retried
by the `retry` decorator); `thumbGenError` is
`ThumbnailGenerationError`; `cleanupError` is an exception out of
`check_if_cleanup_needed`; `storeError` is a redis error out of
`publish_job_status` after its retries are exhausted. -/
inductive GenErr where
  | valueError
  | overflowError
  | resolveError
  | thumbGenError
  | cleanupError
  | storeError
deriving DecidableEq, Repr

/-- External outcomes for a single `generate_thumbnail` call.
`skip_local_ffmpeg` and `proxy` describe the config flag and whether
`get_proxy_url` returned a proxy; `resolveOk1`/`resolveOk2` whether
`get_playback_url` succeeds on the first/second attempt of the retried
`generate_and_store_thumbnail`; `ff1`-`ff4` the outcomes of successive
`generate_with_ffmpeg` invocations in program order; `pubTrueOk` /
`pubFalseOk` whether the retried `publish_job_status` call for `"true"` /
`"false"` ultimately succeeds (see `publish_job_status_model` for the retry
combinator itself); `cleanupOk` whether `check_if_cleanup_needed` returns
without raising (`utils/cleanup.py` is absent from the sources; modelled
from the spec: it reads the storage counter from the coordinator store and
triggers cleanup, so a store failure raises out of it). -/
structure GenEnv where
  skip_local_ffmpeg : Bool
  proxy : Bool
  resolveOk1 : Bool
  resolveOk2 : Bool
  ff1 : FfmpegOutcome
  ff2 : FfmpegOutcome
  ff3 : FfmpegOutcome
  ff4 : FfmpegOutcome
  pubTrueOk : Bool
  pubFalseOk : Bool
  cleanupOk : Bool
deriving DecidableEq, Repr

/-- One attempt of `generate_and_store_thumbnail` (thumbnail.py lines
93-123).  `oA` is the outcome of the first `generate_with_ffmpeg` call
(made with the proxy only when `skip_local_ffmpeg` is set and a proxy is
available, line 104); on `FFmpegError` the code retries once through the
proxy whenever one is available (line 113), and a second `FFmpegError`
(or a first one with no proxy) is wrapped into `ThumbnailGenerationError`
(lines 119-123).  Returns the list of `generate_with_ffmpeg` calls made
(recording for each whether a proxy URL was passed), the new disk state,
and the result (`ok size` on success).  The extraction outcomes `oA`/`oB`
are parameters independent of the time value: this is the finite-time
abstraction — `gas_attempt_timed` threads the time through the
frame-offset computation and agrees with this one on finite times
(`gas_attempt_timed_finite`). -/
def gas_attempt (skipLocal proxyAvail resolveOk : Bool) (oA oB : FfmpegOutcome) (fs : FS) :
    List Bool × FS × Except GenErr Nat :=
  if resolveOk = false then ([], fs, .error .resolveError)
  else
    let p1 := skipLocal && proxyAvail
    match oA with
    | some sz => ([p1], { fs with image := some sz }, .ok sz)
    | none =>
      if proxyAvail then
        match oB with
        | some sz => ([p1, true], { fs with image := some sz }, .ok sz)
        | none => ([p1, true], { fs with image := none }, .error .thumbGenError)
      else ([p1], { fs with image := none }, .error .thumbGenError)

/-- `generate_and_store_thumbnail` under its `retry(ThumbnailGenerationError,
tries=2, delay=1)` decorator (thumbnail.py line 92): a
`ThumbnailGenerationError` from the first attempt triggers exactly one
further attempt; any other error propagates immediately, and a second
`ThumbnailGenerationError` propagates. -/
def generate_and_store (env : GenEnv) (fs : FS) : List Bool × FS × Except GenErr Nat :=
  match gas_attempt env.skip_local_ffmpeg env.proxy env.resolveOk1 env.ff1 env.ff2 fs with
  | (c1, fs1, .ok sz) => (c1, fs1, .ok sz)
  | (c1, fs1, .error .thumbGenError) =>
    match gas_attempt env.skip_local_ffmpeg env.proxy env.resolveOk2 env.ff3 env.ff4 fs1 with
    | (c2, fs2, r) => (c1 ++ c2, fs2, r)
  | (c1, fs1, .error e) => (c1, fs1, .error e)

/-- A Python float value: finite (modelled as a rational), NaN, or an
infinity.  `isinstance(x, float)` is true for all four constructors of
`PyFloat`. -/
inductive PyFloat where
  | finite (q : ℚ)
  | nan
  | inf
  | neginf
deriving DecidableEq

/-- A Python value passed as the `time` argument: either a float or a value
of some other type (for which `isinstance(time, float)` is false). -/
inductive PyVal where
  | float (x : PyFloat)
  | nonFloat
deriving DecidableEq

/-- The `isinstance(time, float)` check used by `generate_thumbnail`,
`get_thumbnail_from_files` and `get_file_paths` (thumbnail.py lines 47,
225, 264).  It accepts every float, including NaN and the infinities. -/
def PyVal.isFloat : PyVal → Bool
  | .float _ => true
  | .nonFloat => false

/-- Modelled from the spec: `valid_video_id` lives in `utils/video.py`,
which is absent from the sources.  Per the spec (§3), a video id is valid
iff it is exactly 11 characters from the class `[A-Za-z0-9_-]`. -/
def valid_video_id (s : String) : Bool :=
  s.length == 11 && s.toList.all (fun c => c.isAlphanum || c == '_' || c == '-')

/-- `generate_thumbnail` (thumbnail.py lines 42-89).  Returns the
`generate_with_ffmpeg` calls made, the final on-disk state, the list of
statuses successfully published on the fingerprint's channel (in order),
and the call's result.  The body validates the inputs (lines 45-48), runs
the retried `generate_and_store_thumbnail` (line 56), writes the title
file if a title was given (lines 59-60), deletes the image and raises
`ThumbnailGenerationError` when it is smaller than `minimum_file_size`
(lines 66-74), publishes `"true"` and triggers the cleanup check (lines
81-82); the exception handler (lines 86-89) publishes `"false"` and
re-raises — if that publish itself raises after its retries, the store
error propagates instead of the original exception.  The best-effort
`update_last_used` / `add_storage_used` redis updates (lines 50-54, 68-72,
76-80) swallow their own errors and are omitted.  Extraction outcomes are
parameters independent of the time value: this is the finite-time
abstraction — `generate_thumbnail_timed` threads the time through the
frame-offset computation (where a non-finite value raises at line 132)
and agrees with this one on finite times
(`generate_thumbnail_timed_finite`). -/
def generate_thumbnail (env : GenEnv) (video_id : String) (t : PyVal) (title : Option String)
    (minimum_file_size : Nat) (fs : FS) :
    List Bool × FS × List String × Except GenErr Unit :=
  if (valid_video_id video_id && t.isFloat) = false then
    if env.pubFalseOk then ([], fs, ["false"], .error .valueError)
    else ([], fs, [], .error .storeError)
  else
    match generate_and_store env fs with
    | (c, fs1, .error e) =>
      if env.pubFalseOk then (c, fs1, ["false"], .error e)
      else (c, fs1, [], .error .storeError)
    | (c, fs1, .ok sz) =>
      let fs2 := match title with
        | some ttl => { fs1 with titleFile := some ttl }
        | none => fs1
      if sz < minimum_file_size then
        if env.pubFalseOk then (c, { fs2 with image := none }, ["false"], .error .thumbGenError)
        else (c, { fs2 with image := none }, [], .error .storeError)
      else
        if env.pubTrueOk then
          if env.cleanupOk then (c, fs2, ["true"], .ok ())
          else
            if env.pubFalseOk then (c, fs2, ["true", "false"], .error .cleanupError)
            else (c, fs2, ["true"], .error .storeError)
        else
          if env.pubFalseOk then (c, fs2, ["false"], .error .storeError)
          else (c, fs2, [], .error .storeError)

/-- The `retry` combinator with `tries` attempts: `outcome i` tells whether
the `i`-th underlying call succeeds.  Returns the number of attempts made
and whether the whole call succeeded (`python-retry` re-raises the last
error once the attempts are exhausted). -/
def retry_run (outcome : Nat → Bool) : Nat → Nat → Nat × Bool
  | _, 0 => (0, false)
  | i, fuel + 1 =>
    if outcome i then (1, true)
    else
      let p := retry_run outcome (i + 1) fuel
      (p.1 + 1, p.2)

/-- `publish_job_status` under its `retry(tries=5, delay=0.1, backoff=3)`
decorator (thumbnail.py lines 290-292): up to 5 attempts of
`redis_conn.publish`. -/
def publish_job_status_model (outcome : Nat → Bool) : Nat × Bool :=
  retry_run outcome 0 5

/-- The sleep (in seconds) before retry number `k` of `publish_job_status`:
`delay=0.1` with `backoff=3` gives `0.1 * 3 ^ k`. -/
def publish_delay (k : Nat) : ℚ :=
  (1 / 10) * 3 ^ k

/-- File-state effect of `get_thumbnail_from_files` (thumbnail.py lines
241-258) at the fingerprint finally read: the image file is read (a
missing file raises `FileNotFoundError` from `read_bytes`, an empty one
raises `FileNotFoundError` at line 245) and only then, on success, the
title file is written when a title was passed (lines 247-248).  Returns
the new state and whether the call succeeded. -/
def get_thumbnail_from_files (fs : FS) (title : Option String) : FS × Bool :=
  match fs.image with
  | none => (fs, false)
  | some 0 => (fs, false)
  | some _ =>
    match title with
    | some ttl => ({ fs with titleFile := some ttl }, true)
    | none => (fs, true)

/-- Python `int()` applied to a number: truncation toward zero. -/
def pyTrunc (q : ℚ) : ℤ :=
  if 0 ≤ q then ⌊q⌋ else ⌈q⌉

/-- The frame-offset rounding of `generate_with_ffmpeg` (thumbnail.py lines
131-136): `rounded_time = int(time * fps) / fps`, and for 60 fps feeds
`rounded_time = max(0, rounded_time - 1/100)`.  This is the offset passed
to ffmpeg via `-ss` (line 170). -/
def rounded_time (time fps : ℚ) : ℚ :=
  let r := (pyTrunc (time * fps) : ℚ) / fps
  if fps = 60 then max 0 (r - 1 / 100) else r

/-- Python float multiplication `time * fps` (thumbnail.py line 132),
extended to the non-finite values: NaN absorbs everything; an infinity
times a nonzero finite number keeps or flips its sign, and times zero
gives NaN. -/
def pyFloatMul (x : PyFloat) (f : ℚ) : PyFloat :=
  match x with
  | .finite q => .finite (q * f)
  | .nan => .nan
  | .inf => if 0 < f then .inf else if f < 0 then .neginf else .nan
  | .neginf => if 0 < f then .neginf else if f < 0 then .inf else .nan

/-- What `generate_with_ffmpeg` can raise: `ffmpegError` is `FFmpegError`
from `run_ffmpeg` (caught at lines 112 and 119); `valueErrorNan` is the
`ValueError` CPython raises for `int()` of NaN and `overflowInf` the
`OverflowError` for `int()` of an infinity, both at line 132 — neither is
an `FFmpegError`, so they propagate through both handlers. -/
inductive FfmpegRaise where
  | ffmpegError
  | valueErrorNan
  | overflowInf
deriving DecidableEq, Repr

/-- Python `int()` applied to a float (thumbnail.py line 132): truncation
toward zero for finite values, `ValueError` for NaN, `OverflowError` for
the infinities. -/
def pyInt (x : PyFloat) : Except FfmpegRaise ℤ :=
  match x with
  | .finite q => .ok (pyTrunc q)
  | .nan => .error .valueErrorNan
  | .inf => .error .overflowInf
  | .neginf => .error .overflowInf

/-- Observable I/O actions of `generate_with_ffmpeg`: the
`output_folder.mkdir` at line 129 (filesystem I/O), and a `run_ffmpeg`
invocation at line 167 (extractor I/O, recording whether an
`-http_proxy` flag was passed). -/
inductive GenEvent where
  | mkdir
  | ffmpeg (withProxy : Bool)
deriving DecidableEq, Repr

/-- `generate_with_ffmpeg` (thumbnail.py lines 126-181, non-livestream),
with the time value threaded through: the folder is created first (line
129, filesystem I/O); then `rounded_time = int(time * fps) / fps` (line
132) — for a non-finite time `int()` raises here, BEFORE the livestream
branch and before any `run_ffmpeg` invocation, and nothing is unlinked;
for a finite time the extractor runs with outcome `o` (`some sz` writes
the output file, `none` is `FFmpegError`, after which the output file is
unlinked, line 176). -/
def generate_with_ffmpeg (x : PyFloat) (fps : ℚ) (withProxy : Bool) (o : FfmpegOutcome)
    (fs : FS) : List GenEvent × FS × Except FfmpegRaise Nat :=
  match pyInt (pyFloatMul x fps) with
  | .error e => ([.mkdir], fs, .error e)
  | .ok _ =>
    match o with
    | some sz => ([.mkdir, .ffmpeg withProxy], { fs with image := some sz }, .ok sz)
    | none => ([.mkdir, .ffmpeg withProxy], { fs with image := none }, .error .ffmpegError)

/-- One attempt of `generate_and_store_thumbnail` (lines 93-123) with the
time value threaded through `generate_with_ffmpeg`.  Refines
`gas_attempt` (see `gas_attempt_timed_finite`): only `FFmpegError`
triggers the in-attempt proxy retry (line 112) and only `FFmpegError` is
wrapped into `ThumbnailGenerationError` (lines 119-123); the
`ValueError`/`OverflowError` of a non-finite time propagate unchanged. -/
def gas_attempt_timed (skipLocal proxyAvail resolveOk : Bool) (x : PyFloat) (fps : ℚ)
    (oA oB : FfmpegOutcome) (fs : FS) : List GenEvent × FS × Except GenErr Nat :=
  if resolveOk = false then ([], fs, .error .resolveError)
  else
    let p1 := skipLocal && proxyAvail
    match generate_with_ffmpeg x fps p1 oA fs with
    | (ev1, fs1, .ok sz) => (ev1, fs1, .ok sz)
    | (ev1, fs1, .error .valueErrorNan) => (ev1, fs1, .error .valueError)
    | (ev1, fs1, .error .overflowInf) => (ev1, fs1, .error .overflowError)
    | (ev1, fs1, .error .ffmpegError) =>
      if proxyAvail then
        match generate_with_ffmpeg x fps true oB fs1 with
        | (ev2, fs2, .ok sz) => (ev1 ++ ev2, fs2, .ok sz)
        | (ev2, fs2, .error .ffmpegError) => (ev1 ++ ev2, fs2, .error .thumbGenError)
        | (ev2, fs2, .error .valueErrorNan) => (ev1 ++ ev2, fs2, .error .valueError)
        | (ev2, fs2, .error .overflowInf) => (ev1 ++ ev2, fs2, .error .overflowError)
      else (ev1, fs1, .error .thumbGenError)

/-- `generate_and_store_thumbnail` under its retry decorator, with the
time value threaded through.  Refines `generate_and_store` (see
`generate_and_store_timed_finite`): only a `ThumbnailGenerationError`
from the first attempt triggers the second attempt, so the
`ValueError`/`OverflowError` of a non-finite time is raised once and not
retried. -/
def generate_and_store_timed (env : GenEnv) (x : PyFloat) (fps : ℚ) (fs : FS) :
    List GenEvent × FS × Except GenErr Nat :=
  match gas_attempt_timed env.skip_local_ffmpeg env.proxy env.resolveOk1 x fps env.ff1 env.ff2 fs with
  | (e1, fs1, .ok sz) => (e1, fs1, .ok sz)
  | (e1, fs1, .error .thumbGenError) =>
    match gas_attempt_timed env.skip_local_ffmpeg env.proxy env.resolveOk2 x fps env.ff3 env.ff4 fs1 with
    | (e2, fs2, r) => (e1 ++ e2, fs2, r)
  | (e1, fs1, .error e) => (e1, fs1, .error e)

/-- `generate_thumbnail` (lines 42-89) with the time value threaded
through the frame-offset computation; `fps` is the rate of the resolved
playback URL.  Refines `generate_thumbnail` below the validation exactly
as `generate_and_store_timed` refines `generate_and_store` (see
`generate_thumbnail_timed_finite`); the `.nonFloat` arm is unreachable
(the validation branch already handled `isinstance(time, float) = False`).
Returns the I/O events, the final on-disk state, the statuses
successfully published, and the result. -/
def generate_thumbnail_timed (env : GenEnv) (video_id : String) (t : PyVal) (fps : ℚ)
    (title : Option String) (minimum_file_size : Nat) (fs : FS) :
    List GenEvent × FS × List String × Except GenErr Unit :=
  if (valid_video_id video_id && t.isFloat) = false then
    if env.pubFalseOk then ([], fs, ["false"], .error .valueError)
    else ([], fs, [], .error .storeError)
  else
    match t with
    | .nonFloat => ([], fs, [], .error .valueError)
    | .float x =>
      match generate_and_store_timed env x fps fs with
      | (ev, fs1, .error e) =>
        if env.pubFalseOk then (ev, fs1, ["false"], .error e)
        else (ev, fs1, [], .error .storeError)
      | (ev, fs1, .ok sz) =>
        let fs2 := match title with
          | some ttl => { fs1 with titleFile := some ttl }
          | none => fs1
        if sz < minimum_file_size then
          if env.pubFalseOk then (ev, { fs2 with image := none }, ["false"], .error .thumbGenError)
          else (ev, { fs2 with image := none }, [], .error .storeError)
        else
          if env.pubTrueOk then
            if env.cleanupOk then (ev, fs2, ["true"], .ok ())
            else
              if env.pubFalseOk then (ev, fs2, ["true", "false"], .error .cleanupError)
              else (ev, fs2, ["true"], .error .storeError)
          else
            if env.pubFalseOk then (ev, fs2, ["false"], .error .storeError)
            else (ev, fs2, [], .error .storeError)

/-- Projects a `GenEvent` trace onto the extractor-call/proxy-flag trace
used by the untimed model. -/
def event_flag : GenEvent → Option Bool
  | .mkdir => none
  | .ffmpeg b => some b

/-- Model of Python `s.startswith(pre)`. -/
def starts_with (s pre : String) : Bool :=
  pre.toList.isPrefixOf s.toList

/-- Model of Python `s.endswith(suf)`. -/
def ends_with (s suf : String) : Bool :=
  suf.toList.isSuffixOf s.toList

/-- The value returned by `get_proxy_url` (proxy.py lines 53-56 and
config.py `ProxyInfoConfig`): a proxy URL plus an optional country code. -/
structure ProxyInfo where
  url : String
  country_code : Option String
deriving DecidableEq, Repr

/-- A static proxy entry from the configuration (`config.proxy_urls`,
config.py `ProxyInfoConfig`). -/
structure ProxyInfoConfig where
  url : String
  country_code : Option String
deriving DecidableEq, Repr

/-- A proxy record from the webshare.io pool as returned by
`fetch_proxies` (proxy.py lines 18-43). -/
structure PoolProxy where
  username : String
  password : String
  proxy_address : String
  port : Nat
  country_code : String
deriving DecidableEq, Repr

/-- The URL built for a pool proxy (proxy.py line 72):
`http://{username}:{password}@{proxy_address}:{port}/`. -/
def pool_proxy_url (p : PoolProxy) : String :=
  "http://" ++ p.username ++ ":" ++ p.password ++ "@" ++ p.proxy_address
    ++ ":" ++ toString p.port ++ "/"

/-- `get_proxy_url` (proxy.py lines 58-76).  The branch on
`config.proxy_token` comes first: with a token configured the pool is
used even when `config.proxy_urls` is also set.  Randomness is modelled
by the index `k`: `random.choice(l)` and `l[random.randint(0, len(l)-1)]`
both pick index `k % l.length`, uniformly over the choices of `k`.
`pool` is the list returned by `fetch_proxies()`; an empty pool raises
`ValueError` (line 69).  `verify` is the verdict of `verify_proxy_url`
(proxy.py lines 45-50), which delegates to `pydantic.HttpUrl` — an
external library validation modelled, like the other external effects,
by its outcome: `verify u = true` when `pydantic.HttpUrl(u)` succeeds and
`false` when it raises `ValidationError` (which it can, e.g. for an
out-of-range port or an empty host); a failing verdict raises
`ValueError("Proxy url is invalid")` (line 76). -/
def get_proxy_url (verify : String → Bool) (proxy_token : Option String)
    (proxy_urls : Option (List ProxyInfoConfig)) (pool : List PoolProxy) (k : Nat) :
    Except String (Option ProxyInfo) :=
  match proxy_token with
  | none =>
    match proxy_urls with
    | some urls =>
      match urls.get? (k % urls.length) with
      | some chosen => .ok (some ⟨chosen.url, chosen.country_code⟩)
      | none => .error "IndexError"
    | none => .ok none
  | some _ =>
    if pool.length = 0 then .error "No proxies available at the moment"
    else
      match pool.get? (k % pool.length) with
      | some chosen =>
        if verify (pool_proxy_url chosen) then
          .ok (some ⟨pool_proxy_url chosen, some chosen.country_code⟩)
        else .error "Proxy url is invalid"
      | none => .error "IndexError"

/-- `image_format` from `constants/thumbnail.py` (absent from the sources;
modelled from the spec §3: the image file is `<offset>.webp`). -/
def image_format : String := ".webp"

/-- Python `str.replace(pat, repl)` with an empty replacement: removes the
non-overlapping occurrences of `pat` left to right.  Structural recursion
on a character-count fuel so that it evaluates inside the kernel. -/
def replaceAllAux (pat : List Char) : Nat → List Char → List Char
  | 0, s => s
  | _, [] => []
  | fuel + 1, c :: rest =>
    if pat.isPrefixOf (c :: rest) && pat.length != 0 then
      replaceAllAux pat fuel ((c :: rest).drop pat.length)
    else c :: replaceAllAux pat fuel rest

/-- Python `s.replace(pat, "")`. -/
def py_replace (s pat : String) : String :=
  String.mk (replaceAllAux pat.toList s.toList.length s.toList)

/-- Splits a character list on a separator character (the behaviour of
Python `s.split(sep)` / Lean `String.splitOn` for a one-character
separator). -/
def splitOnChar (sep : Char) : List Char → List (List Char)
  | [] => [[]]
  | c :: rest =>
    match splitOnChar sep rest with
    | [] => [[]]
    | g :: gs => if c = sep then [] :: g :: gs else (c :: g) :: gs

/-- Parses a nonempty all-digit character list as a decimal natural
number (the behaviour of `int(s)` / `String.toNat?` on such input). -/
def digitsToNat : List Char → Option Nat
  | [] => none
  | cs =>
    cs.foldl
      (fun acc c =>
        match acc with
        | none => none
        | some n => if c.isDigit then some (n * 10 + (c.toNat - 48)) else none)
      (some 0)

/-- Drops trailing `0` characters (used for the fractional part of
Python's shortest-repr float formatting on millisecond values). -/
def stripTrailingZeros (s : String) : String :=
  String.mk ((s.toList.reverse.dropWhile (· = '0')).reverse)

/-- Three-digit zero-padded decimal form of `n < 1000`. -/
def pad3 (n : Nat) : String :=
  if n < 10 then "00" ++ toString n
  else if n < 100 then "0" ++ toString n
  else toString n

/-- Python `str()` of the float `m / 1000`, for a time of `m` milliseconds
(the spec's data model, §3, gives time offsets millisecond precision, and
on that domain Python's shortest-repr formatting prints the integer part,
a dot, and the fractional digits with trailing zeros stripped — `"5.3"`,
`"5.03"`, `"17.0"`). -/
def fmtMilli (m : Nat) : String :=
  toString (m / 1000) ++ "." ++
    (if m % 1000 = 0 then "0" else stripTrailingZeros (pad3 (m % 1000)))

/-- Python `float(s)` on a filename stem, restricted to the non-negative
decimal forms with at most three fractional digits that occur as
millisecond-precision artifact names; returns the value in milliseconds.
Other strings (for example stems carrying the `-live` suffix) fail to
parse, matching the `except ValueError: continue` in the scan. -/
def parseMilli (s : String) : Option Nat :=
  match splitOnChar '.' s.toList with
  | [ip] => (digitsToNat ip).map (· * 1000)
  | [ip, fp] =>
    match digitsToNat ip with
    | some i =>
      if fp.length = 0 then some (i * 1000)
      else if fp.length ≤ 3 then
        (digitsToNat fp).map (fun f => i * 1000 + f * 10 ^ (3 - fp.length))
      else none
    | none => none
  | _ => none

/-- The per-entry test of the scan in `get_thumbnail_from_files`
(thumbnail.py lines 232-239): the entry must end with `image_format`,
start with the truncated-time string, and its stem (the name with
`image_format` removed) must parse as a float. -/
def matches_entry (ts : String) (f : String) : Bool :=
  ends_with f image_format && starts_with f ts
    && (parseMilli (py_replace f image_format)).isSome

/-- The file finally read by `get_thumbnail_from_files` (thumbnail.py
lines 228-243) for a request at `m` milliseconds, given the folder
entries `files` in scan order.  `truncated_time = math.floor(time * 1000)
/ 1000` (line 229) is the identity on millisecond-precision times, and
its string form always contains a dot on this domain, so the scan always
runs; the loop takes the first matching entry and re-reads `time` from
its stem (line 236), and `get_file_paths` then rebuilds the filename from
that value (line 268). -/
def select_file (files : List String) (m : Nat) : String :=
  let ts := fmtMilli m
  match files.find? (matches_entry ts) with
  | some f =>
    match parseMilli (py_replace f image_format) with
    | some m2 => fmtMilli m2 ++ image_format
    | none => fmtMilli m ++ image_format
  | none => fmtMilli m ++ image_format

/-- Result of one signing-helper operation, as seen by the `track_errors`
decorator (nsig.py lines 30-42): normal return, `NsigSafeError`
(re-raised without touching the errored flag), or any other exception
(`BaseException` branch: the errored flag is set). -/
inductive CallOutcome where
  | ok
  | safe
  | proto
deriving DecidableEq, Repr

/-- Connection state of `NsigHelper` as far as error tracking is
concerned: the `errored` flag (nsig.py line 69). -/
structure NsigConn where
  errored : Bool
deriving DecidableEq, Repr

/-- `reset_connection` (nsig.py lines 90-99): closes and reopens the
socket and clears the errored flag (assuming the reconnect itself
succeeds). -/
def reset_connection (_ : NsigConn) : NsigConn := ⟨false⟩

/-- The `track_errors` decorator (nsig.py lines 30-42) around one helper
operation with outcome `o`: if the connection is errored,
`reset_connection` is called before the operation; a `NsigSafeError`
leaves the flag as it is, any other exception sets it.  Returns whether
`reset_connection` was called, and the state after the call. -/
def track_errors (c : NsigConn) (o : CallOutcome) : Bool × NsigConn :=
  let didReset := c.errored
  let c1 := if c.errored then reset_connection c else c
  match o with
  | .ok => (didReset, c1)
  | .safe => (didReset, c1)
  | .proto => (didReset, { c1 with errored := true })

/-- `U16 = 2**16` (nsig.py line 13). -/
def U16 : Nat := 2 ^ 16

/-- `U32 = 2**32` (nsig.py line 14). -/
def U32 : Nat := 2 ^ 32

/-- State of the `NsigHelper` instance: the errored flag and
`_next_request_id` (nsig.py lines 66-69). -/
structure NsigState where
  errored : Bool
  next_request_id : Nat
deriving DecidableEq, Repr

/-- Observable actions on the helper connection: a reconnect, or a request
frame sent by `sendall` (recording the opcode, the request id, and the
value of the `u16` length field). -/
inductive NsigEvent where
  | reset
  | sent (opcode : Nat) (request_id : Nat) (len_field : Nat)
deriving DecidableEq, Repr

/-- How a helper call ends: normal return, `NsigSafeError`, or a
protocol-level error. -/
inductive NsigResult where
  | success
  | safeError
  | protoError
deriving DecidableEq, Repr

/-- `decrypt_nsig` (nsig.py lines 147-163) under `track_errors`.  `n` is
the UTF-8 encoding of the input string (`n.encode("utf-8")`, line 149);
the guard `len(n) >= U16` raises `NsigSafeError` before the request id is
taken and before anything is sent (lines 150-151); otherwise the request
is packed with a `u16` length field equal to `len(n)` and sent with
opcode `0x01`, the request id advances modulo `U32` (lines 104-107), and
`resp` gives the outcome of the response exchange (a zero-size answer is
the safe "Failed to decrypt nsig" error, line 160; a malformed exchange
is a protocol error).  Returns the events on the connection, the final
state, and how the call ended. -/
def decrypt_nsig (st : NsigState) (n : List Nat) (resp : CallOutcome) :
    List NsigEvent × NsigState × NsigResult :=
  let ev0 : List NsigEvent := if st.errored then [.reset] else []
  let st0 : NsigState := if st.errored then { st with errored := false } else st
  if U16 ≤ n.length then (ev0, st0, .safeError)
  else
    let rid := st0.next_request_id
    let st1 : NsigState := { st0 with next_request_id := (rid + 1) % U32 }
    match resp with
    | .ok => (ev0 ++ [.sent 1 rid n.length], st1, .success)
    | .safe => (ev0 ++ [.sent 1 rid n.length], st1, .safeError)
    | .proto => (ev0 ++ [.sent 1 rid n.length], { st1 with errored := true }, .protoError)

/-- `decrypt_sig` (nsig.py lines 165-181): identical to `decrypt_nsig`
except for opcode `0x02` and the error message of the zero-size safe
error. -/
def decrypt_sig (st : NsigState) (s : List Nat) (resp : CallOutcome) :
    List NsigEvent × NsigState × NsigResult :=
  let ev0 : List NsigEvent := if st.errored then [.reset] else []
  let st0 : NsigState := if st.errored then { st with errored := false } else st
  if U16 ≤ s.length then (ev0, st0, .safeError)
  else
    let rid := st0.next_request_id
    let st1 : NsigState := { st0 with next_request_id := (rid + 1) % U32 }
    match resp with
    | .ok => (ev0 ++ [.sent 2 rid s.length], st1, .success)
    | .safe => (ev0 ++ [.sent 2 rid s.length], st1, .safeError)
    | .proto => (ev0 ++ [.sent 2 rid s.length], { st1 with errored := true }, .protoError)

/-! ## Helper lemmas -/

/-- A successful `gas_attempt` leaves the image file on disk with exactly
the size it reports. -/
theorem gas_attempt_ok_image (a b c : Bool) (oA oB : FfmpegOutcome) (fs : FS) (sz : Nat)
    (h : (gas_attempt a b c oA oB fs).2.2 = .ok sz) :
    (gas_attempt a b c oA oB fs).2.1.image = some sz := by
  rcases oA with _ | szA <;> rcases oB with _ | szB <;> rcases c <;> rcases b <;>
    simp_all [gas_attempt]

/-- A successful `generate_and_store_thumbnail` leaves the image file on
disk with exactly the size it reports. -/
theorem generate_and_store_ok_image (env : GenEnv) (fs : FS) (sz : Nat)
    (h : (generate_and_store env fs).2.2 = .ok sz) :
    (generate_and_store env fs).2.1.image = some sz := by
  unfold generate_and_store at h ⊢
  rcases h1 : gas_attempt env.skip_local_ffmpeg env.proxy env.resolveOk1 env.ff1 env.ff2 fs
    with ⟨c1, fs1, r1⟩
  have h1i := gas_attempt_ok_image env.skip_local_ffmpeg env.proxy env.resolveOk1 env.ff1 env.ff2 fs
  rw [h1] at h1i
  cases r1 with
  | ok sz1 =>
    simp only [h1] at h ⊢
    simp at h
    subst h
    exact h1i sz1 rfl
  | error e =>
    cases e <;> simp only [h1] at h ⊢ <;> try simp at h
    rcases h2 : gas_attempt env.skip_local_ffmpeg env.proxy env.resolveOk2 env.ff3 env.ff4 fs1
      with ⟨c2, fs2, r2⟩
    have h2i := gas_attempt_ok_image env.skip_local_ffmpeg env.proxy env.resolveOk2 env.ff3 env.ff4 fs1
    rw [h2] at h2i
    cases r2 with
    | ok sz2 =>
      simp only [h2] at h ⊢
      simp at h
      subst h
      exact h2i sz2 rfl
    | error e2 => simp only [h2] at h; simp at h

/-! ## Claim C1 -/

/-- Claim C1: for every `generate_thumbnail` call whose produced image file
is smaller than `minimum_file_size`, the image file is deleted
(`os.remove`, line 67), the call fails by raising
`ThumbnailGenerationError` (line 74, assuming the failure-status publish
itself succeeds), and the undersized-output failure triggers no further
extraction attempt — the `generate_with_ffmpeg` calls of the whole call
are exactly those of the already-finished `generate_and_store_thumbnail`
— so no image file below the minimum size is observable after the call. -/
theorem c1_undersized_output (env : GenEnv) (vid : String) (t : PyVal) (title : Option String)
    (minSize : Nat) (fs : FS) (sz : Nat)
    (hv : (valid_video_id vid && t.isFloat) = true)
    (hp : env.pubFalseOk = true)
    (hg : (generate_and_store env fs).2.2 = .ok sz)
    (hs : sz < minSize) :
    (generate_thumbnail env vid t title minSize fs).2.1.image = none ∧
    (generate_thumbnail env vid t title minSize fs).2.2.2 = .error .thumbGenError ∧
    (generate_thumbnail env vid t title minSize fs).1 = (generate_and_store env fs).1 := by
  rcases h : generate_and_store env fs with ⟨c, fs1, r⟩
  rw [h] at hg
  simp at hg
  subst hg
  cases title <;> simp [generate_thumbnail, hv, h, hs, hp]

/-- Witness for C1: a concrete run in which ffmpeg produces a 10-byte file
against a 100-byte minimum. -/
theorem c1_witness :
    (generate_thumbnail ⟨false, false, true, true, some 10, none, none, none, true, true, true⟩
      "jNQXAC9IVRw" (.float (.finite 0)) none 100 ⟨none, none⟩).2.1.image = none ∧
    (generate_thumbnail ⟨false, false, true, true, some 10, none, none, none, true, true, true⟩
      "jNQXAC9IVRw" (.float (.finite 0)) none 100 ⟨none, none⟩).2.2.2 = .error .thumbGenError ∧
    (generate_thumbnail ⟨false, false, true, true, some 10, none, none, none, true, true, true⟩
      "jNQXAC9IVRw" (.float (.finite 0)) none 100 ⟨none, none⟩).1 =
    (generate_and_store ⟨false, false, true, true, some 10, none, none, none, true, true, true⟩
      ⟨none, none⟩).1 :=
  c1_undersized_output _ "jNQXAC9IVRw" (.float (.finite 0)) none 100 ⟨none, none⟩ 10
    (by decide) rfl rfl (by decide)

/-! ## Claim C2 -/

/-- Counterexample to claim C2 as stated: `generate_thumbnail` with title
`"Me at the zoo"` whose produced image is 10 bytes (below the 100-byte
minimum) writes the title file (lines 59-60), then deletes only the image
file (line 67).  After the call the title file exists while the image
file does not, violating the invariant "title file exists ⇒ image file
exists". -/
theorem c2_counterexample :
    (generate_thumbnail ⟨false, false, true, true, some 10, none, none, none, true, true, true⟩
      "jNQXAC9IVRw" (.float (.finite 0)) (some "Me at the zoo") 100 ⟨none, none⟩).2.1.titleFile
      = some "Me at the zoo" ∧
    (generate_thumbnail ⟨false, false, true, true, some 10, none, none, none, true, true, true⟩
      "jNQXAC9IVRw" (.float (.finite 0)) (some "Me at the zoo") 100 ⟨none, none⟩).2.1.image
      = none := ⟨rfl, rfl⟩

/-- Claim C2 as amended: after every SUCCESSFUL `generate_thumbnail` the
invariant "title file exists ⇒ image file exists" holds, and every
`get_thumbnail_from_files` call (with or without a title, successful or
not) preserves the invariant; but a failed `generate_thumbnail` may leave
a title file with no image file (the counterexample). -/
theorem c2_title_implies_image (env : GenEnv) (vid : String) (t : PyVal) (title : Option String)
    (minSize : Nat) (fs fsg : FS) (titleg : Option String) :
    ((generate_thumbnail env vid t title minSize fs).2.2.2 = .ok () →
      ((generate_thumbnail env vid t title minSize fs).2.1.titleFile.isSome = true →
        (generate_thumbnail env vid t title minSize fs).2.1.image.isSome = true)) ∧
    ((fsg.titleFile.isSome = true → fsg.image.isSome = true) →
      ((get_thumbnail_from_files fsg titleg).1.titleFile.isSome = true →
        (get_thumbnail_from_files fsg titleg).1.image.isSome = true)) := by
  constructor
  · intro hok _
    rcases hv : (valid_video_id vid && t.isFloat) with hv0 | hv1
    · cases hp : env.pubFalseOk <;> simp [generate_thumbnail, hv, hp] at hok
    · rcases h : generate_and_store env fs with ⟨c, fs1, r⟩
      have himg := generate_and_store_ok_image env fs
      rw [h] at himg
      cases r with
      | error e =>
        cases hp : env.pubFalseOk <;> simp [generate_thumbnail, hv, h, hp] at hok
      | ok sz =>
        have himg2 : fs1.image = some sz := himg sz rfl
        by_cases hsz : sz < minSize
        · cases hp : env.pubFalseOk <;>
            cases title <;> simp [generate_thumbnail, hv, h, hsz, hp] at hok
        · cases hp : env.pubTrueOk <;> cases hc : env.cleanupOk <;>
            cases hq : env.pubFalseOk <;> cases title <;>
            simp [generate_thumbnail, hv, h, hsz, hp, hc, hq, himg2] at hok ⊢
  · intro hinv hafter
    rcases hi : fsg.image with _ | szg
    · simp [get_thumbnail_from_files, hi] at hafter ⊢
      exact absurd (hinv hafter) (by simp [hi])
    · cases szg with
      | zero => simp [get_thumbnail_from_files, hi] at hafter ⊢
      | succ n =>
        cases titleg <;> simp [get_thumbnail_from_files, hi] at hafter ⊢

/-- Witness for the amended C2: a successful titled generation satisfies
the invariant, and a titled read of an existing image preserves it. -/
theorem c2_witness :
    ((generate_thumbnail ⟨false, false, true, true, some 200, none, none, none, true, true, true⟩
      "jNQXAC9IVRw" (.float (.finite 0)) (some "Me at the zoo") 100 ⟨none, none⟩).2.2.2 = .ok () →
      ((generate_thumbnail ⟨false, false, true, true, some 200, none, none, none, true, true, true⟩
        "jNQXAC9IVRw" (.float (.finite 0)) (some "Me at the zoo") 100
        ⟨none, none⟩).2.1.titleFile.isSome = true →
        (generate_thumbnail ⟨false, false, true, true, some 200, none, none, none, true, true, true⟩
          "jNQXAC9IVRw" (.float (.finite 0)) (some "Me at the zoo") 100
          ⟨none, none⟩).2.1.image.isSome = true)) ∧
    (((⟨some 300, none⟩ : FS).titleFile.isSome = true →
        (⟨some 300, none⟩ : FS).image.isSome = true) →
      ((get_thumbnail_from_files ⟨some 300, none⟩ (some "t")).1.titleFile.isSome = true →
        (get_thumbnail_from_files ⟨some 300, none⟩ (some "t")).1.image.isSome = true)) :=
  c2_title_implies_image ⟨false, false, true, true, some 200, none, none, none, true, true, true⟩
    "jNQXAC9IVRw" (.float (.finite 0)) (some "Me at the zoo") 100 ⟨none, none⟩
    ⟨some 300, none⟩ (some "t")

/-! ## Claim C3 -/

/-- Counterexample to claim C3 as stated: with `skip_local_ffmpeg = true`
and a proxy available, the first decode already goes through the proxy
(`proxy_to_use = proxy_url`, line 104), yet on `FFmpegError` the code
still retries through the proxy (the guard at line 113 only checks that a
proxy exists, not whether it was already used).  The call trace is
`[true, true]` — two extractions, both proxied — where the claim requires
no proxy retry, i.e. a single call. -/
theorem c3_counterexample :
    (gas_attempt true true true none none ⟨none, none⟩).1 = [true, true] ∧
    (gas_attempt true true true none none ⟨none, none⟩).1 ≠ [true] ∧
    (gas_attempt true true true none none ⟨none, none⟩).2.2 = .error .thumbGenError :=
  ⟨rfl, by decide, rfl⟩

/-- Claim C3 as amended: within one `generate_and_store_thumbnail`
attempt, if the frame extractor fails and a proxy is AVAILABLE (whether
or not it was already used for the first decode), exactly one retry is
made with the proxy inserted; if no proxy is available, no retry is made;
a second extractor failure (or a first one with no proxy) is fatal for
the attempt, surfacing as `ThumbnailGenerationError`; and a successful
first extraction makes exactly one call. -/
theorem c3_proxy_retry (skip proxy : Bool) (o2 : FfmpegOutcome) (fs : FS) :
    (proxy = true →
      (gas_attempt skip proxy true none o2 fs).1 = [skip, true] ∧
      (o2 = none → (gas_attempt skip proxy true none o2 fs).2.2 = .error .thumbGenError) ∧
      (∀ sz, o2 = some sz → (gas_attempt skip proxy true none o2 fs).2.2 = .ok sz)) ∧
    (proxy = false →
      (gas_attempt skip proxy true none o2 fs).1 = [false] ∧
      (gas_attempt skip proxy true none o2 fs).2.2 = .error .thumbGenError) ∧
    (∀ sz, (gas_attempt skip proxy true (some sz) o2 fs).1 = [skip && proxy]) := by
  cases proxy <;> rcases o2 with _ | sz2 <;> simp [gas_attempt]

/-- Witness for the amended C3: first extraction fails without a proxy
available — one call, `ThumbnailGenerationError`. -/
theorem c3_witness :
    (gas_attempt false false true none none ⟨none, none⟩).1 = [false] ∧
    (gas_attempt false false true none none ⟨none, none⟩).2.2 = .error .thumbGenError :=
  (c3_proxy_retry false false none ⟨none, none⟩).2.1 rfl

/-! ## Claim C4 -/

/-- The retry combinator makes at most `fuel` attempts. -/
theorem retry_run_attempts_le (o : Nat → Bool) (i f : Nat) : (retry_run o i f).1 ≤ f := by
  induction f generalizing i with
  | zero => simp [retry_run]
  | succ n ih =>
    by_cases h : o i
    · simp [retry_run, h]
    · simp only [retry_run, h, if_false, Bool.false_eq_true]
      exact Nat.succ_le_succ (ih (i + 1))

/-- The retry combinator succeeds exactly when one of its `fuel` attempts
succeeds. -/
theorem retry_run_success_iff (o : Nat → Bool) (i f : Nat) :
    (retry_run o i f).2 = true ↔ ∃ j, j < f ∧ o (i + j) = true := by
  induction f generalizing i with
  | zero => simp [retry_run]
  | succ n ih =>
    by_cases h : o i
    · simp only [retry_run, h, if_true]
      exact iff_of_true trivial ⟨0, Nat.succ_pos n, by simpa using h⟩
    · simp only [retry_run, h, if_false, Bool.false_eq_true, ih (i + 1)]
      constructor
      · rintro ⟨j, hj, hoj⟩
        exact ⟨j + 1, Nat.succ_lt_succ hj, by rwa [show i + (j + 1) = i + 1 + j by omega]⟩
      · rintro ⟨j, hj, hoj⟩
        cases j with
        | zero => exact absurd (by simpa using hoj) (by simp [h])
        | succ j2 =>
          exact ⟨j2, Nat.lt_of_succ_lt_succ hj, by rwa [show i + 1 + j2 = i + (j2 + 1) by omega]⟩

/-- Counterexample to claim C4 as stated: if the coordinator store is down
(every attempt of the retried `publish_job_status` fails) then a failing
`generate_thumbnail` call publishes NOTHING — the `"false"` publish in the
exception handler (line 88) exhausts its 5 tries and raises — so it is
not the case that on any failure exactly `"false"` is published. -/
theorem c4_counterexample :
    (generate_thumbnail ⟨false, false, true, true, none, none, none, none, true, false, true⟩
      "jNQXAC9IVRw" (.float (.finite 0)) none 100 ⟨none, none⟩).2.2.1 = [] ∧
    (generate_thumbnail ⟨false, false, true, true, none, none, none, none, true, false, true⟩
      "jNQXAC9IVRw" (.float (.finite 0)) none 100 ⟨none, none⟩).2.2.2 = .error .storeError ∧
    ([] : List String) ≠ ["false"] :=
  ⟨rfl, rfl, by decide⟩

/-- Claim C4 as amended: a `generate_thumbnail` call that returns
successfully publishes exactly `"true"`; a failing call publishes exactly
`"false"` when the `"false"` publish succeeds, except that a failure
arising after the success publish (the cleanup trigger, line 82) yields
both `"true"` and `"false"`; when the `"false"` publish itself fails the
failing call publishes nothing (or only the earlier `"true"`); and each
`publish_job_status` call makes at most 5 attempts, succeeding exactly
when one of them succeeds, with exponentially growing backoff
(`delay=0.1`, `backoff=3`). -/
theorem c4_status_publication (env : GenEnv) (vid : String) (t : PyVal) (title : Option String)
    (minSize : Nat) (fs : FS) :
    ((generate_thumbnail env vid t title minSize fs).2.2.2 = .ok () →
      (generate_thumbnail env vid t title minSize fs).2.2.1 = ["true"]) ∧
    (∀ e, (generate_thumbnail env vid t title minSize fs).2.2.2 = .error e →
      env.pubFalseOk = true →
      ((generate_thumbnail env vid t title minSize fs).2.2.1 = ["false"] ∨
        (generate_thumbnail env vid t title minSize fs).2.2.1 = ["true", "false"])) ∧
    (∀ e, (generate_thumbnail env vid t title minSize fs).2.2.2 = .error e →
      env.pubFalseOk = false →
      ((generate_thumbnail env vid t title minSize fs).2.2.1 = [] ∨
        (generate_thumbnail env vid t title minSize fs).2.2.1 = ["true"])) ∧
    (∀ o : Nat → Bool, (publish_job_status_model o).1 ≤ 5 ∧
      ((publish_job_status_model o).2 = true ↔ ∃ i, i < 5 ∧ o i = true)) ∧
    (∀ k, publish_delay (k + 1) = 3 * publish_delay k) := by
  refine ⟨?_, ?_, ?_, ?_, ?_⟩
  case _ =>
    intro hok
    cases hv : (valid_video_id vid && t.isFloat) with
    | false => cases hp : env.pubFalseOk <;> simp [generate_thumbnail, hv, hp] at hok
    | true =>
      rcases h : generate_and_store env fs with ⟨c, fs1, rr⟩
      cases rr with
      | error e => cases hp : env.pubFalseOk <;> simp [generate_thumbnail, hv, h, hp] at hok
      | ok sz =>
        by_cases hsz : sz < minSize <;>
          cases hp : env.pubTrueOk <;> cases hq : env.pubFalseOk <;>
          cases hc : env.cleanupOk <;> cases title <;>
          simp [generate_thumbnail, hv, h, hsz, hp, hq, hc] at hok ⊢
  case _ =>
    intro e herr hq
    cases hv : (valid_video_id vid && t.isFloat) with
    | false => simp [generate_thumbnail, hv, hq]
    | true =>
      rcases h : generate_and_store env fs with ⟨c, fs1, rr⟩
      cases rr with
      | error e2 => simp [generate_thumbnail, hv, h, hq]
      | ok sz =>
        by_cases hsz : sz < minSize <;>
          cases hp : env.pubTrueOk <;> cases hc : env.cleanupOk <;> cases title <;>
          simp [generate_thumbnail, hv, h, hsz, hp, hq, hc] at herr ⊢
  case _ =>
    intro e herr hq
    cases hv : (valid_video_id vid && t.isFloat) with
    | false => simp [generate_thumbnail, hv, hq]
    | true =>
      rcases h : generate_and_store env fs with ⟨c, fs1, rr⟩
      cases rr with
      | error e2 => simp [generate_thumbnail, hv, h, hq]
      | ok sz =>
        by_cases hsz : sz < minSize <;>
          cases hp : env.pubTrueOk <;> cases hc : env.cleanupOk <;> cases title <;>
          simp [generate_thumbnail, hv, h, hsz, hp, hq, hc] at herr ⊢
  case _ =>
    intro o
    exact ⟨retry_run_attempts_le o 0 5, by simpa using retry_run_success_iff o 0 5⟩
  case _ =>
    intro k
    simp [publish_delay, pow_succ]
    ring

/-- Witness for the amended C4: a successful generation publishes exactly
`"true"`; the publish retry makes at most 5 attempts; the backoff is
exponential with factor 3. -/
theorem c4_witness :
    (generate_thumbnail ⟨false, false, true, true, some 200, none, none, none, true, true, true⟩
      "jNQXAC9IVRw" (.float (.finite 0)) none 100 ⟨none, none⟩).2.2.1 = ["true"] ∧
    (publish_job_status_model (fun _ => false)).1 ≤ 5 ∧
    publish_delay 1 = 3 * publish_delay 0 :=
  ⟨(c4_status_publication ⟨false, false, true, true, some 200, none, none, none, true, true, true⟩
      "jNQXAC9IVRw" (.float (.finite 0)) none 100 ⟨none, none⟩).1 rfl,
    ((c4_status_publication ⟨false, false, true, true, some 200, none, none, none, true, true, true⟩
      "jNQXAC9IVRw" (.float (.finite 0)) none 100 ⟨none, none⟩).2.2.2.1 (fun _ => false)).1,
    (c4_status_publication ⟨false, false, true, true, some 200, none, none, none, true, true, true⟩
      "jNQXAC9IVRw" (.float (.finite 0)) none 100 ⟨none, none⟩).2.2.2.2 0⟩

/-! ## Claim C5 -/

/-- Claim C5: for every non-negative time offset `t` and resolver fps
`f > 0`, the offset passed to the frame extractor equals
`floor(t * f) / f`, except when `f = 60`, in which case it equals
`floor(t * 60) / 60 - 1/100`, floored at 0 (thumbnail.py lines 131-136;
Python `int()` truncates toward zero, which is `floor` on non-negative
values). -/
theorem c5_frame_rounding (t f : ℚ) (ht : 0 ≤ t) (hf : 0 < f) :
    rounded_time t f =
      if f = 60 then max 0 ((⌊t * f⌋ : ℚ) / f - 1 / 100) else (⌊t * f⌋ : ℚ) / f := by
  have htf : 0 ≤ t * f := mul_nonneg ht (le_of_lt hf)
  simp [rounded_time, pyTrunc, htf]

/-- Witness for C5 at `t = 1/2`, `f = 60`: the extractor receives
`max 0 (30/60 - 1/100) = 49/100`. -/
theorem c5_witness :
    rounded_time (1 / 2) 60 =
      if (60 : ℚ) = 60 then max 0 ((⌊(1 / 2 : ℚ) * 60⌋ : ℚ) / 60 - 1 / 100)
      else (⌊(1 / 2 : ℚ) * 60⌋ : ℚ) / 60 :=
  c5_frame_rounding (1 / 2) 60 (by norm_num) (by norm_num)

/-! ## Refinement: the timed chain projects onto the untimed one on finite times -/

/-- On a finite time, one timed attempt makes the same extractor calls
(with the same proxy flags) and computes the same state and result as the
untimed `gas_attempt`. -/
theorem gas_attempt_timed_finite (skip proxy resolve : Bool) (q fps : ℚ)
    (oA oB : FfmpegOutcome) (fs : FS) :
    (gas_attempt_timed skip proxy resolve (.finite q) fps oA oB fs).1.filterMap event_flag
      = (gas_attempt skip proxy resolve oA oB fs).1 ∧
    (gas_attempt_timed skip proxy resolve (.finite q) fps oA oB fs).2
      = (gas_attempt skip proxy resolve oA oB fs).2 := by
  cases resolve <;> rcases oA with _ | a <;> rcases oB with _ | b <;> cases proxy <;>
    simp [gas_attempt_timed, gas_attempt, generate_with_ffmpeg, pyFloatMul, pyInt, event_flag]

/-- On a finite time, the retried timed store agrees with the untimed
`generate_and_store`. -/
theorem generate_and_store_timed_finite (env : GenEnv) (q fps : ℚ) (fs : FS) :
    (generate_and_store_timed env (.finite q) fps fs).1.filterMap event_flag
      = (generate_and_store env fs).1 ∧
    (generate_and_store_timed env (.finite q) fps fs).2 = (generate_and_store env fs).2 := by
  have h1 := gas_attempt_timed_finite env.skip_local_ffmpeg env.proxy env.resolveOk1 q fps
    env.ff1 env.ff2 fs
  rcases ht1 : gas_attempt_timed env.skip_local_ffmpeg env.proxy env.resolveOk1 (.finite q) fps
      env.ff1 env.ff2 fs with ⟨e1, fs1t, r1t⟩
  rcases h1o : gas_attempt env.skip_local_ffmpeg env.proxy env.resolveOk1 env.ff1 env.ff2 fs
    with ⟨c1, fs1, r1⟩
  rw [ht1, h1o] at h1
  obtain ⟨h1e, h1s⟩ := h1
  simp only [Prod.mk.injEq] at h1s
  obtain ⟨hfs1, hr1⟩ := h1s
  subst hfs1
  subst hr1
  cases r1t with
  | ok sz => simp [generate_and_store_timed, generate_and_store, ht1, h1o, h1e]
  | error e =>
    cases e <;>
      try simp [generate_and_store_timed, generate_and_store, ht1, h1o, h1e]
    have h2 := gas_attempt_timed_finite env.skip_local_ffmpeg env.proxy env.resolveOk2 q fps
      env.ff3 env.ff4 fs1t
    rcases ht2 : gas_attempt_timed env.skip_local_ffmpeg env.proxy env.resolveOk2 (.finite q) fps
        env.ff3 env.ff4 fs1t with ⟨e2, fs2t, r2t⟩
    rcases h2o : gas_attempt env.skip_local_ffmpeg env.proxy env.resolveOk2 env.ff3 env.ff4 fs1t
      with ⟨c2, fs2, r2⟩
    rw [ht2, h2o] at h2
    obtain ⟨h2e, h2s⟩ := h2
    simp only [Prod.mk.injEq] at h2s
    obtain ⟨hfs2, hr2⟩ := h2s
    subst hfs2
    subst hr2
    simp [generate_and_store_timed, generate_and_store, ht1, h1o, ht2, h2o, h1e, h2e,
      List.filterMap_append]

/-- On a finite time, the timed `generate_thumbnail_timed` agrees with the
untimed `generate_thumbnail`: same extractor calls, same final state,
same published statuses, same result. -/
theorem generate_thumbnail_timed_finite (env : GenEnv) (vid : String) (q fps : ℚ)
    (title : Option String) (minSize : Nat) (fs : FS) :
    (generate_thumbnail_timed env vid (.float (.finite q)) fps title minSize fs).1.filterMap
        event_flag
      = (generate_thumbnail env vid (.float (.finite q)) title minSize fs).1 ∧
    (generate_thumbnail_timed env vid (.float (.finite q)) fps title minSize fs).2
      = (generate_thumbnail env vid (.float (.finite q)) title minSize fs).2 := by
  cases hv : (valid_video_id vid && PyVal.isFloat (.float (.finite q))) with
  | false =>
    cases hp : env.pubFalseOk <;>
      simp [generate_thumbnail_timed, generate_thumbnail, hv, hp]
  | true =>
    have hb := generate_and_store_timed_finite env q fps fs
    rcases hts : generate_and_store_timed env (.finite q) fps fs with ⟨ev, fs1t, rt⟩
    rcases hos : generate_and_store env fs with ⟨c, fs1, r⟩
    rw [hts, hos] at hb
    obtain ⟨he, hs⟩ := hb
    simp only [Prod.mk.injEq] at hs
    obtain ⟨hfs, hr⟩ := hs
    subst hfs
    subst hr
    cases rt with
    | error e =>
      cases hp : env.pubFalseOk <;>
        simp [generate_thumbnail_timed, generate_thumbnail, hv, hts, hos, hp, he]
    | ok sz =>
      by_cases hsz : sz < minSize <;>
        cases hp : env.pubTrueOk <;> cases hq : env.pubFalseOk <;> cases hc2 : env.cleanupOk <;>
        cases title <;>
        simp [generate_thumbnail_timed, generate_thumbnail, hv, hts, hos, hsz, hp, hq, hc2, he]

/-! ## Claim C6 -/

/-- For a non-finite time, `int(time * fps)` raises: `ValueError` for NaN
and, when fps is positive (as resolver frame rates are), `OverflowError`
for the infinities. -/
theorem pyInt_pyFloatMul_nonfinite (x : PyFloat) (f : ℚ)
    (hx : x = .nan ∨ x = .inf ∨ x = .neginf) :
    ∃ e, pyInt (pyFloatMul x f) = .error e ∧
      (e = .valueErrorNan ∨ e = .overflowInf) ∧
      (x = .nan → e = .valueErrorNan) ∧ (0 < f → x ≠ .nan → e = .overflowInf) := by
  rcases hx with rfl | rfl | rfl
  · exact ⟨.valueErrorNan, rfl, Or.inl rfl, fun _ => rfl, fun _ h => absurd rfl h⟩
  · rcases lt_trichotomy 0 f with hf | hf | hf
    · refine ⟨.overflowInf, ?_, Or.inr rfl, ?_, fun _ _ => rfl⟩
      · simp [pyFloatMul, pyInt, hf]
      · intro h; simp at h
    · subst hf
      refine ⟨.valueErrorNan, by simp [pyFloatMul, pyInt], Or.inl rfl, ?_, ?_⟩
      · intro h; simp at h
      · intro hf0; exact absurd hf0 (lt_irrefl 0)
    · have hnf : ¬ (0 : ℚ) < f := not_lt.mpr hf.le
      refine ⟨.overflowInf, ?_, Or.inr rfl, ?_, fun _ _ => rfl⟩
      · simp [pyFloatMul, pyInt, hf, hnf]
      · intro h; simp at h
  · rcases lt_trichotomy 0 f with hf | hf | hf
    · refine ⟨.overflowInf, ?_, Or.inr rfl, ?_, fun _ _ => rfl⟩
      · simp [pyFloatMul, pyInt, hf]
      · intro h; simp at h
    · subst hf
      refine ⟨.valueErrorNan, by simp [pyFloatMul, pyInt], Or.inl rfl, ?_, ?_⟩
      · intro h; simp at h
      · intro hf0; exact absurd hf0 (lt_irrefl 0)
    · have hnf : ¬ (0 : ℚ) < f := not_lt.mpr hf.le
      refine ⟨.overflowInf, ?_, Or.inr rfl, ?_, fun _ _ => rfl⟩
      · simp [pyFloatMul, pyInt, hf, hnf]
      · intro h; simp at h

/-- With a successful resolve and a non-finite time, one timed attempt
performs exactly the `mkdir` (no extractor call), leaves the files
untouched and raises the rounding error, which is not a
`ThumbnailGenerationError`. -/
theorem gas_attempt_timed_nonfinite (skip proxy : Bool) (x : PyFloat) (f : ℚ)
    (oA oB : FfmpegOutcome) (fs : FS) (hx : x = .nan ∨ x = .inf ∨ x = .neginf) :
    ∃ e, gas_attempt_timed skip proxy true x f oA oB fs = ([.mkdir], fs, .error e) ∧
      (e = .valueError ∨ e = .overflowError) ∧
      (x = .nan → e = .valueError) ∧ (0 < f → x ≠ .nan → e = .overflowError) := by
  obtain ⟨e0, he0, hk, hnan, hinf⟩ := pyInt_pyFloatMul_nonfinite x f hx
  rcases hk with rfl | rfl
  · refine ⟨.valueError, ?_, Or.inl rfl, fun _ => rfl, ?_⟩
    · simp [gas_attempt_timed, generate_with_ffmpeg, he0]
    · intro hf hne
      exact absurd (hinf hf hne) (by simp)
  · refine ⟨.overflowError, ?_, Or.inr rfl, ?_, fun _ _ => rfl⟩
    · simp [gas_attempt_timed, generate_with_ffmpeg, he0]
    · intro hxn
      exact absurd (hnan hxn) (by simp)

/-- With a successful resolve and a non-finite time, the retried store
makes a single attempt (the rounding error is not retried) whose only
I/O event is the `mkdir`. -/
theorem generate_and_store_timed_nonfinite (env : GenEnv) (x : PyFloat) (f : ℚ) (fs : FS)
    (hx : x = .nan ∨ x = .inf ∨ x = .neginf) (hres : env.resolveOk1 = true) :
    ∃ e, generate_and_store_timed env x f fs = ([.mkdir], fs, .error e) ∧
      (e = .valueError ∨ e = .overflowError) ∧
      (x = .nan → e = .valueError) ∧ (0 < f → x ≠ .nan → e = .overflowError) := by
  obtain ⟨e, he, hk, hnan, hinf⟩ := gas_attempt_timed_nonfinite env.skip_local_ffmpeg env.proxy
    x f env.ff1 env.ff2 fs hx
  refine ⟨e, ?_, hk, hnan, hinf⟩
  rcases hk with rfl | rfl <;> simp [generate_and_store_timed, hres, he]

/-- Counterexample to claim C6 as stated: a non-finite time offset is NOT
rejected up front — the validation at line 47 is only
`isinstance(time, float)`, which NaN and the infinities satisfy.  The
call then resolves the playback URL and CREATES THE OUTPUT FOLDER
(filesystem I/O, the `mkdir` at line 129) before dying at
`int(time * fps)` (line 132); and for an infinite offset the error is
`OverflowError`, not an input-invalid rejection.  So "performs no
filesystem or extractor I/O" is false at `time = NaN`, where the event
trace is `[.mkdir]` ≠ `[]`. -/
theorem c6_counterexample :
    (generate_thumbnail_timed ⟨false, false, true, true, some 200, none, none, none, true, true,
        true⟩ "jNQXAC9IVRw" (.float .nan) 30 none 100 ⟨none, none⟩).1 = [.mkdir] ∧
    ([GenEvent.mkdir] : List GenEvent) ≠ [] ∧
    (generate_thumbnail_timed ⟨false, false, true, true, some 200, none, none, none, true, true,
        true⟩ "jNQXAC9IVRw" (.float .nan) 30 none 100 ⟨none, none⟩).2.2.2
      = .error .valueError ∧
    (generate_thumbnail_timed ⟨false, false, true, true, some 200, none, none, none, true, true,
        true⟩ "jNQXAC9IVRw" (.float .inf) 30 none 100 ⟨none, none⟩).2.2.2
      = .error .overflowError :=
  ⟨rfl, by decide, rfl, rfl⟩

/-- Claim C6 as amended: a malformed video id, or a time value that is not
a float at all, raises `ValueError` before any filesystem or extractor
I/O (no events, disk state untouched).  A non-finite float offset (NaN
or an infinity) PASSES the validation; the call never invokes the
extractor and always fails, but not as an up-front rejection: with a
successful resolve it creates the output folder (filesystem I/O) and
then raises from `int(time * fps)` — `ValueError` for NaN,
`OverflowError` for the infinities (for the positive frame rates the
resolver returns). -/
theorem c6_input_validation (env : GenEnv) (vid : String) (t : PyVal) (x : PyFloat) (fps : ℚ)
    (title : Option String) (minSize : Nat) (fs : FS) :
    ((valid_video_id vid && t.isFloat) = false →
      (generate_thumbnail_timed env vid t fps title minSize fs).1 = [] ∧
      (generate_thumbnail_timed env vid t fps title minSize fs).2.1 = fs ∧
      (env.pubFalseOk = true →
        (generate_thumbnail_timed env vid t fps title minSize fs).2.2.2
          = .error .valueError)) ∧
    (valid_video_id vid = true → (x = .nan ∨ x = .inf ∨ x = .neginf) →
      (∀ b : Bool, GenEvent.ffmpeg b ∉
        (generate_thumbnail_timed env vid (.float x) fps title minSize fs).1) ∧
      (∃ e, (generate_thumbnail_timed env vid (.float x) fps title minSize fs).2.2.2
          = .error e) ∧
      (env.resolveOk1 = true →
        (generate_thumbnail_timed env vid (.float x) fps title minSize fs).1 = [.mkdir] ∧
        (generate_thumbnail_timed env vid (.float x) fps title minSize fs).2.1 = fs ∧
        (env.pubFalseOk = true → 0 < fps →
          (generate_thumbnail_timed env vid (.float x) fps title minSize fs).2.2.2
            = .error (if x = .nan then .valueError else .overflowError)))) := by
  constructor
  · intro h
    cases hp : env.pubFalseOk <;> simp [generate_thumbnail_timed, h, hp]
  · intro hvid hx
    have hv : (valid_video_id vid && PyVal.isFloat (.float x)) = true := by
      simp [hvid, PyVal.isFloat]
    cases hres : env.resolveOk1 with
    | false =>
      have hgs : generate_and_store_timed env x fps fs = ([], fs, .error .resolveError) := by
        simp [generate_and_store_timed, gas_attempt_timed, hres]
      refine ⟨?_, ?_, ?_⟩
      · intro b
        cases hp : env.pubFalseOk <;> simp [generate_thumbnail_timed, hv, hgs, hp]
      · cases hp : env.pubFalseOk
        · exact ⟨.storeError, by simp [generate_thumbnail_timed, hv, hgs, hp]⟩
        · exact ⟨.resolveError, by simp [generate_thumbnail_timed, hv, hgs, hp]⟩
      · intro h
        simp at h
    | true =>
      obtain ⟨e, he, hk, hnan, hinf⟩ := generate_and_store_timed_nonfinite env x fps fs hx hres
      refine ⟨?_, ?_, ?_⟩
      · intro b
        cases hp : env.pubFalseOk <;> simp [generate_thumbnail_timed, hv, he, hp]
      · cases hp : env.pubFalseOk
        · exact ⟨.storeError, by simp [generate_thumbnail_timed, hv, he, hp]⟩
        · exact ⟨e, by simp [generate_thumbnail_timed, hv, he, hp]⟩
      · intro _
        refine ⟨?_, ?_, ?_⟩
        · cases hp : env.pubFalseOk <;> simp [generate_thumbnail_timed, hv, he, hp]
        · cases hp : env.pubFalseOk <;> simp [generate_thumbnail_timed, hv, he, hp]
        · intro hp hfps
          by_cases hxn : x = .nan
          · subst hxn
            have hev : e = GenErr.valueError := hnan rfl
            subst hev
            simp [generate_thumbnail_timed, hv, he, hp]
          · have hev : e = GenErr.overflowError := hinf hfps hxn
            subst hev
            simp [generate_thumbnail_timed, hv, he, hp, hxn]

/-- Witness for the amended C6: the malformed id `"../etc"` is rejected
with no I/O, and a NaN offset at a valid id yields no extractor event,
a failing result, and (with a successful resolve) only the `mkdir`. -/
theorem c6_witness :
    ((generate_thumbnail_timed ⟨false, false, true, true, some 200, none, none, none, true, true,
        true⟩ "../etc" (.float (.finite 0)) 30 none 100 ⟨none, none⟩).1 = [] ∧
      (generate_thumbnail_timed ⟨false, false, true, true, some 200, none, none, none, true, true,
        true⟩ "../etc" (.float (.finite 0)) 30 none 100 ⟨none, none⟩).2.1 = ⟨none, none⟩ ∧
      ((⟨false, false, true, true, some 200, none, none, none, true, true, true⟩ :
          GenEnv).pubFalseOk = true →
        (generate_thumbnail_timed ⟨false, false, true, true, some 200, none, none, none, true,
          true, true⟩ "../etc" (.float (.finite 0)) 30 none 100 ⟨none, none⟩).2.2.2
          = .error .valueError)) ∧
    ((∀ b : Bool, GenEvent.ffmpeg b ∉
        (generate_thumbnail_timed ⟨false, false, true, true, some 200, none, none, none, true,
          true, true⟩ "jNQXAC9IVRw" (.float .nan) 30 none 100 ⟨none, none⟩).1) ∧
      (∃ e, (generate_thumbnail_timed ⟨false, false, true, true, some 200, none, none, none, true,
          true, true⟩ "jNQXAC9IVRw" (.float .nan) 30 none 100 ⟨none, none⟩).2.2.2
          = .error e) ∧
      ((⟨false, false, true, true, some 200, none, none, none, true, true, true⟩ :
          GenEnv).resolveOk1 = true →
        (generate_thumbnail_timed ⟨false, false, true, true, some 200, none, none, none, true,
          true, true⟩ "jNQXAC9IVRw" (.float .nan) 30 none 100 ⟨none, none⟩).1 = [.mkdir] ∧
        (generate_thumbnail_timed ⟨false, false, true, true, some 200, none, none, none, true,
          true, true⟩ "jNQXAC9IVRw" (.float .nan) 30 none 100 ⟨none, none⟩).2.1
          = ⟨none, none⟩ ∧
        ((⟨false, false, true, true, some 200, none, none, none, true, true, true⟩ :
            GenEnv).pubFalseOk = true → 0 < (30 : ℚ) →
          (generate_thumbnail_timed ⟨false, false, true, true, some 200, none, none, none, true,
            true, true⟩ "jNQXAC9IVRw" (.float .nan) 30 none 100 ⟨none, none⟩).2.2.2
            = .error (if PyFloat.nan = .nan then GenErr.valueError
                else GenErr.overflowError)))) :=
  ⟨(c6_input_validation ⟨false, false, true, true, some 200, none, none, none, true, true, true⟩
      "../etc" (.float (.finite 0)) .nan 30 none 100 ⟨none, none⟩).1 (by decide),
    (c6_input_validation ⟨false, false, true, true, some 200, none, none, none, true, true, true⟩
      "jNQXAC9IVRw" (.float .nan) .nan 30 none 100 ⟨none, none⟩).2 (by decide) (Or.inl rfl)⟩

/-! ## Claim C7 -/

/-- Counterexample to claim C7 as stated: with BOTH a static proxy list
and a remote provider token configured, `get_proxy_url` serves from the
pool, not from the static list (`config.proxy_token` is tested first,
proxy.py line 59) — the returned URL is the pool URL, which is not the
static entry's URL.  (The pydantic verdict here is `true`, which is the
actual verdict on this well-formed URL.) -/
theorem c7_counterexample :
    get_proxy_url (fun _ => true) (some "tok") (some [⟨"http://static.example/", none⟩])
      [⟨"u", "p", "1.2.3.4", 8080, "US"⟩] 0
      = .ok (some ⟨"http://u:p@1.2.3.4:8080/", some "US"⟩) ∧
    ("http://u:p@1.2.3.4:8080/" : String) ≠ "http://static.example/" :=
  ⟨rfl, by decide⟩

/-- Claim C7 as amended (precedence reversed): if a remote provider token
is configured, the result is served from the refreshable pool — even
when a static list is also configured — with the entry chosen uniformly
at random; an empty pool raises, and the chosen entry is returned only
when its constructed URL passes the pydantic validation, a failing
verdict raising `ValueError("Proxy url is invalid")`.  Otherwise, if a
static list is configured, the result is one of the static entries
chosen uniformly at random (every entry is reachable, and each call
returns the entry at index `k mod length`); otherwise no proxy is
returned. -/
theorem c7_proxy_selection (verify : String → Bool) (tok : String)
    (urls : Option (List ProxyInfoConfig)) (pool : List PoolProxy) (k : Nat) :
    (get_proxy_url verify none none pool k = .ok none) ∧
    (∀ l c, l.get? (k % l.length) = some c →
      get_proxy_url verify none (some l) pool k = .ok (some ⟨c.url, c.country_code⟩)) ∧
    (∀ (l : List ProxyInfoConfig) (i : Nat) (c : ProxyInfoConfig), l.get? i = some c →
      ∃ k2, get_proxy_url verify none (some l) pool k2 = .ok (some ⟨c.url, c.country_code⟩)) ∧
    (get_proxy_url verify (some tok) urls [] k
      = .error "No proxies available at the moment") ∧
    (∀ p, pool.get? (k % pool.length) = some p →
      (verify (pool_proxy_url p) = true →
        get_proxy_url verify (some tok) urls pool k
          = .ok (some ⟨pool_proxy_url p, some p.country_code⟩)) ∧
      (verify (pool_proxy_url p) = false →
        get_proxy_url verify (some tok) urls pool k = .error "Proxy url is invalid")) := by
  refine ⟨rfl, ?_, ?_, rfl, ?_⟩
  · intro l c hc
    simp only [List.get?_eq_getElem?] at hc
    simp [get_proxy_url, hc]
  · intro l i c hc
    refine ⟨i, ?_⟩
    have hlt : i < l.length := List.get?_eq_some.mp hc |>.1
    simp only [List.get?_eq_getElem?] at hc
    simp [get_proxy_url, Nat.mod_eq_of_lt hlt, hc]
  · intro p hp
    have hlt : k % pool.length < pool.length := List.get?_eq_some.mp hp |>.1
    have hne : pool.length ≠ 0 := by omega
    simp only [List.get?_eq_getElem?] at hp
    constructor <;> intro hverify <;> simp [get_proxy_url, hne, hp, hverify]

/-- Witness for the amended C7: a configured token serves the pool entry
when its URL passes validation, and raises "Proxy url is invalid" when
the pydantic verdict is negative (e.g. for the out-of-range port
70000). -/
theorem c7_witness :
    get_proxy_url (fun _ => true) (some "tok") (some [⟨"http://static.example/", none⟩])
      [⟨"u", "p", "1.2.3.4", 8080, "US"⟩] 1
      = .ok (some ⟨pool_proxy_url ⟨"u", "p", "1.2.3.4", 8080, "US"⟩, some "US"⟩) ∧
    get_proxy_url (fun _ => false) (some "tok") (some [⟨"http://static.example/", none⟩])
      [⟨"u", "p", "1.2.3.4", 70000, "US"⟩] 1
      = .error "Proxy url is invalid" :=
  ⟨((c7_proxy_selection (fun _ => true) "tok" (some [⟨"http://static.example/", none⟩])
      [⟨"u", "p", "1.2.3.4", 8080, "US"⟩] 1).2.2.2.2 ⟨"u", "p", "1.2.3.4", 8080, "US"⟩
      rfl).1 rfl,
    ((c7_proxy_selection (fun _ => false) "tok" (some [⟨"http://static.example/", none⟩])
      [⟨"u", "p", "1.2.3.4", 70000, "US"⟩] 1).2.2.2.2 ⟨"u", "p", "1.2.3.4", 70000, "US"⟩
      rfl).2 rfl⟩

/-! ## Claim C8 -/

/-- Counterexample to claim C8 as stated: at offset 5.3 s with folder
entries `["5.301.webp", "5.3.webp"]` (in scan order), the exact file
`5.3.webp` IS present, yet the scan — which runs unconditionally — picks
`5.301.webp`, the first entry whose name starts with the truncated-offset
string `"5.3"`, so the exact file is not the one read. -/
theorem c8_counterexample :
    select_file ["5.301.webp", "5.3.webp"] 5300 = "5.301.webp" ∧
    fmtMilli 5300 ++ image_format = "5.3.webp" ∧
    "5.3.webp" ∈ ["5.301.webp", "5.3.webp"] ∧
    select_file ["5.301.webp", "5.3.webp"] 5300 ≠ "5.3.webp" :=
  ⟨by decide, by decide, by decide, by decide⟩

/-- Claim C8 as amended: the folder is always scanned (whether or not the
exact file exists); the first entry in scan order that ends with
`.webp`, starts with the millisecond-truncated offset string and has a
parseable stem determines the offset read (every earlier entry matches
none of these conditions), and the filename read is rebuilt from that
parsed offset — so the exact file is read precisely when it is the first
such match; when no entry matches, the original offset's filename is
read. -/
theorem c8_offset_lookup (files : List String) (m : Nat) :
    (∀ f, files.find? (matches_entry (fmtMilli m)) = some f →
      matches_entry (fmtMilli m) f = true ∧
      (∃ pre post, files = pre ++ f :: post ∧
        ∀ g ∈ pre, matches_entry (fmtMilli m) g = false) ∧
      (∀ m2, parseMilli (py_replace f image_format) = some m2 →
        select_file files m = fmtMilli m2 ++ image_format)) ∧
    (files.find? (matches_entry (fmtMilli m)) = none →
      select_file files m = fmtMilli m ++ image_format) := by
  constructor
  · intro f hf
    rw [List.find?_eq_some] at hf
    obtain ⟨hp, pre, post, heq, hall⟩ := hf
    have hfind : files.find? (matches_entry (fmtMilli m)) = some f := by
      rw [List.find?_eq_some]
      exact ⟨hp, pre, post, heq, hall⟩
    refine ⟨hp, ⟨pre, post, heq, fun g hg => by simpa using hall g hg⟩, ?_⟩
    intro m2 hm2
    simp [select_file, hfind, hm2]
  · intro hn
    simp [select_file, hn]

/-- Witness for the amended C8: with the exact file as the only entry, it
matches and is the file read. -/
theorem c8_witness :
    matches_entry (fmtMilli 5300) "5.3.webp" = true ∧
    select_file ["5.3.webp"] 5300 = fmtMilli 5300 ++ image_format :=
  ⟨((c8_offset_lookup ["5.3.webp"] 5300).1 "5.3.webp" (by decide)).1,
    ((c8_offset_lookup ["5.3.webp"] 5300).1 "5.3.webp" (by decide)).2.2 5300 (by decide)⟩

/-! ## Claim C9 -/

/-- Claim C9: after any operation on the signing-helper client the
connection is dirty exactly when the operation raised a protocol-level
error (any exception other than `NsigSafeError`); the call following a
protocol error calls `reset_connection` before sending; and a call
raising `NsigSafeError` leaves the connection clean afterwards. -/
theorem c9_error_tracking (c : NsigConn) (o o2 : CallOutcome) :
    ((track_errors c o).2.errored = true ↔ o = .proto) ∧
    (o = .proto → (track_errors (track_errors c o).2 o2).1 = true) ∧
    (o = .safe → (track_errors c o).2.errored = false) := by
  cases o <;> cases hc : c.errored <;> cases o2 <;>
    simp [track_errors, reset_connection, hc]

/-- Witness for C9: from a clean connection, a protocol error dirties it
and forces a reconnect on the next call. -/
theorem c9_witness :
    ((track_errors ⟨false⟩ .proto).2.errored = true ↔ (CallOutcome.proto = .proto)) ∧
    (CallOutcome.proto = .proto →
      (track_errors (track_errors ⟨false⟩ .proto).2 .ok).1 = true) ∧
    (CallOutcome.proto = .safe → (track_errors ⟨false⟩ .proto).2.errored = false) :=
  c9_error_tracking ⟨false⟩ .proto .ok

/-! ## Claim C10 -/

/-- Claim C10: for every input whose UTF-8 encoding is `U16 = 65536` bytes
or longer, `decrypt_nsig` and `decrypt_sig` raise `NsigSafeError` before
anything is sent on the connection (no events), the state — including the
errored flag, which stays unset — is unchanged, so no reconnect is forced
on the next call; for shorter inputs exactly one request frame is sent
and its `u16` length field, `len(n)`, fits (it is below `U16`). -/
theorem c10_length_guard (st : NsigState) (n : List Nat) (resp : CallOutcome)
    (hclean : st.errored = false) :
    (U16 ≤ n.length →
      decrypt_nsig st n resp = ([], st, .safeError) ∧
      decrypt_sig st n resp = ([], st, .safeError)) ∧
    (n.length < U16 →
      (decrypt_nsig st n resp).1 = [.sent 1 st.next_request_id n.length] ∧
      (decrypt_sig st n resp).1 = [.sent 2 st.next_request_id n.length] ∧
      n.length < U16) := by
  constructor
  · intro hlong
    have hnot : ¬ n.length < U16 := by omega
    constructor <;> simp [decrypt_nsig, decrypt_sig, hclean, hlong]
  · intro hshort
    have hnot : ¬ U16 ≤ n.length := by omega
    cases resp <;> simp [decrypt_nsig, decrypt_sig, hclean, hnot, hshort]

/-- Witness for C10: a 65536-byte input is rejected without touching the
connection, and a 1-byte input is sent with a fitting length field. -/
theorem c10_witness :
    (decrypt_nsig ⟨false, 0⟩ (List.replicate U16 0) .ok = ([], ⟨false, 0⟩, .safeError) ∧
      decrypt_sig ⟨false, 0⟩ (List.replicate U16 0) .ok = ([], ⟨false, 0⟩, .safeError)) ∧
    ((decrypt_nsig ⟨false, 0⟩ [7] .ok).1 =
        [.sent 1 (⟨false, 0⟩ : NsigState).next_request_id [7].length] ∧
      (decrypt_sig ⟨false, 0⟩ [7] .ok).1 =
        [.sent 2 (⟨false, 0⟩ : NsigState).next_request_id [7].length] ∧
      ([7] : List Nat).length < U16) :=
  ⟨(c10_length_guard ⟨false, 0⟩ (List.replicate U16 0) .ok rfl).1 (by simp),
    (c10_length_guard ⟨false, 0⟩ [7] .ok rfl).2 (by decide)⟩
